import Mathlib

/-!
Shallow embedding of the format-collection pipeline of the reviewed
youtube-dl extractors, centred on `BBCBaseIE._process_media_selector`,
`BBCBaseIE._download_media_selector`, `BBCCoUkIE._download_playlist`
(src/youtube_dl/extractor/bbc.py) and `TV2IE._real_extract`
(src/youtube_dl/extractor/tv2.py).

Modelling conventions:
* Python dict fields that may be absent (or JSON `null`) are `Option`;
  `none` models an absent/`None` value.
* Python truthiness on strings (`None` and `''` are falsy) is `pyTruthyS`;
  on optional ints (`None` and `0` falsy) it is `pyTruthyI`.
* `'%s' % x` rendering of a possibly-`None` value is `pyStr`
  (Python renders `None` as the string `"None"`).
* The manifest-expansion helpers (`_extract_m3u8_formats`,
  `_extract_mpd_formats`, `_extract_f4m_formats`), the ASX XML download
  (`_download_xml` inside `_extract_asx_playlist`), subtitle extraction and
  `_is_valid_url` / `determine_ext` live in files of the repository that are
  outside the reviewed sources (common.py / utils.py); they are taken as
  oracle parameters returning `Except` values, so every theorem holds for
  all behaviours of those helpers (or is instantiated at a concrete one).
* Raised Python exceptions are the `PyError` type threaded through
  `Except`; `MediaSelectionError` is not a subclass of `ExtractorError`,
  which matters for which `except` clauses catch it.
-/

/-- Exceptions that the modelled code can raise or observe. -/
inductive PyError where
  /-- `BBCBaseIE.MediaSelectionError` carrying the `result` id. -/
  | mediaSelectionError (id : String)
  /-- `ExtractorError` whose `exc_info`/cause is an `HTTPError` with this status. -/
  | httpError (code : Nat)
  /-- Any other `ExtractorError`; the message is kept (the constant
  `IE_NAME + ' returned error: '` prefix of `_raise_extractor_error` is elided). -/
  | extractorError (msg : String)
  /-- A `TypeError` (e.g. `None + str`). -/
  | typeError (msg : String)
deriving Repr, DecidableEq

/-- The normalized format record (`dict` in the source); every field optional,
`none` = key absent. -/
structure Format where
  url : Option String := none
  format_id : Option String := none
  filesize : Option Int := none
  width : Option Int := none
  height : Option Int := none
  tbr : Option Int := none
  vcodec : Option String := none
  abr : Option Int := none
  acodec : Option String := none
  play_path : Option String := none
  app : Option String := none
  page_url : Option String := none
  player_url : Option String := none
  rtmp_live : Option Bool := none
  ext : Option String := none
  format_note : Option String := none
  language_preference : Option Int := none
deriving Repr, DecidableEq

/-- A subtitle map: language tag to list of subtitle descriptors (a descriptor
is kept abstract as a string). -/
abbrev Subs := List (String × List String)

/-- One entry of a media's `connection` list in the media-selector JSON. -/
structure Connection where
  href : Option String := none
  kind : Option String := none
  protocol : Option String := none
  supplier : Option String := none
  transferFormat : Option String := none
  application : Option String := none
  authString : Option String := none
  identifier : Option String := none
  server : Option String := none
deriving Repr, DecidableEq

/-- One entry of the media-selector `media` list.  The numeric fields carry
the result of the source's `int_or_none` conversions. -/
structure Media where
  kind : Option String := none
  bitrate : Option Int := none
  encoding : Option String := none
  width : Option Int := none
  height : Option Int := none
  media_file_size : Option Int := none
  connection : List Connection := []
deriving Repr, DecidableEq

/-- Python truthiness of an optional string: `None` and `''` are falsy. -/
def pyTruthyS : Option String → Bool
  | none => false
  | some s => !s.isEmpty

/-- Python truthiness of an optional int: `None` and `0` are falsy. -/
def pyTruthyI : Option Int → Bool
  | none => false
  | some n => n != 0

/-- Python `a or b` on optional strings: keeps `a` when truthy, else `b`. -/
def pyOr (a b : Option String) : Option String :=
  if pyTruthyS a then a else b

/-- Python `'%s' % x` for a possibly-`None` string. -/
def pyStr : Option String → String
  | none => "None"
  | some s => s

/-- The `format_id = supplier or conn_kind or protocol` line
(bbc.py, `_process_media_selector`). -/
def formatIdOf (c : Connection) : Option String :=
  pyOr c.supplier (pyOr c.kind c.protocol)

/-- `href in urls` (the `urls` set only ever receives truthy hrefs). -/
def hrefIn (href : Option String) (urls : List String) : Bool :=
  match href with
  | none => false
  | some s => urls.contains s

/-- `if href: urls.add(href)` — only truthy hrefs are registered. -/
def addHref (href : Option String) (urls : List String) : List String :=
  match href with
  | none => urls
  | some s => if s.isEmpty then urls else s :: urls

/-- The oracle bundle for the helpers of bbc.py that live outside the
reviewed sources.  Each expansion helper receives the connection `href` and
the id prefix the source passes it, and may raise. -/
structure Oracles where
  extract_mpd_formats : Option String → Option String → Except PyError (List Format)
  extract_m3u8_formats : Option String → Option String → Except PyError (List Format)
  extract_f4m_formats : Option String → Option String → Except PyError (List Format)
  /-- `_extract_asx_playlist`: the `ref.get('href')` of each `<ref>` entry of
  the XML document downloaded from the connection href. -/
  extract_asx_playlist : Option String → List (Option String)
  /-- `extract_subtitles(media, programme_id)` for a captions media. -/
  extract_subtitles : Media → Subs

/-- The `except ExtractorError` guard of the hls branch swallows exactly an
`ExtractorError` whose cause is an `HTTPError` with code 403 or 404. -/
def swallowable : PyError → Bool
  | .httpError code => code == 403 || code == 404
  | _ => false

/-- The formats built by the ASX branch:
`'ref%s_%s' % (i, format_id)` over `enumerate(self._extract_asx_playlist(...))`. -/
def asxFormats (fid : String) : Nat → List (Option String) → List Format
  | _, [] => []
  | i, r :: rs =>
    { url := r, format_id := some ("ref" ++ toString i ++ "_" ++ fid) } :: asxFormats fid (i + 1) rs

/-- Mutable state of one `_process_media_selector` pass: the growing
`formats` list and the `urls` set. -/
structure SelState where
  formats : List Format
  urls : List String
deriving Repr, DecidableEq

/-- Processing of one connection of a video/audio media inside
`_process_media_selector` (bbc.py).  Faithful to the source's control flow:
the duplicate-href check and registration happen before any adapter
dispatch; the bitrate suffix is appended (possibly crashing on a `None`
format_id, as Python `None += str` does) only in the direct/RTMP branch. -/
def processConnection (o : Oracles) (m : Media) (st : SelState) (c : Connection) :
    Except PyError SelState :=
  if hrefIn c.href st.urls then .ok st
  else
    let urls := addHref c.href st.urls
    let format_id := formatIdOf c
    if c.supplier = some "asx" then
      .ok ⟨st.formats ++ asxFormats (pyStr format_id) 0 (o.extract_asx_playlist c.href), urls⟩
    else if c.transferFormat = some "dash" then
      match o.extract_mpd_formats c.href format_id with
      | .error e => .error e
      | .ok fmts => .ok ⟨st.formats ++ fmts, urls⟩
    else if c.transferFormat = some "hls" then
      match o.extract_m3u8_formats c.href format_id with
      | .error e => if swallowable e then .ok ⟨st.formats, urls⟩ else .error e
      | .ok fmts => .ok ⟨st.formats ++ fmts, urls⟩
    else if c.transferFormat = some "hds" then
      match o.extract_f4m_formats c.href format_id with
      | .error e => .error e
      | .ok fmts => .ok ⟨st.formats ++ fmts, urls⟩
    else
      let fidStep : Except PyError (Option String) :=
        if !pyTruthyS c.supplier && pyTruthyI m.bitrate then
          match format_id with
          | none => .error (.typeError "unsupported operand type(s) for +=")
          | some s => .ok (some (s ++ "-" ++ toString (m.bitrate.getD 0)))
        else .ok format_id
      match fidStep with
      | .error e => .error e
      | .ok fid =>
        let base : Format := { format_id := fid, filesize := m.media_file_size }
        let fmt : Format :=
          if m.kind = some "video" then
            { base with width := m.width, height := m.height, tbr := m.bitrate,
                        vcodec := m.encoding }
          else
            { base with abr := m.bitrate, acodec := m.encoding, vcodec := some "none" }
        if c.protocol = some "http" ∨ c.protocol = some "https" then
          .ok ⟨st.formats ++ [{ fmt with url := c.href }], urls⟩
        else if c.protocol = some "rtmp" then
          let application := c.application.getD "ondemand"
          .ok ⟨st.formats ++ [{ fmt with
            url := some (pyStr c.protocol ++ "://" ++ pyStr c.server ++ "/" ++
                         application ++ "?" ++ pyStr c.authString),
            play_path := c.identifier,
            app := some (application ++ "?" ++ pyStr c.authString),
            page_url := some "http://www.bbc.co.uk",
            player_url := some "http://www.bbc.co.uk/emp/releases/iplayer/revisions/617463_618125_4/617463_618125_4_emp.swf",
            rtmp_live := some false,
            ext := some "flv" }], urls⟩
        else
          .ok ⟨st.formats, urls⟩

/-- Left-to-right processing of a media's connection list. -/
def processConnections (o : Oracles) (m : Media) :
    SelState → List Connection → Except PyError SelState
  | st, [] => .ok st
  | st, c :: cs =>
    match processConnection o m st c with
    | .error e => .error e
    | .ok st' => processConnections o m st' cs

/-- One media of the selector response: video/audio medias feed the
connection loop, a captions media replaces the subtitles variable. -/
def processMedia (o : Oracles) (acc : SelState × Option Subs) (m : Media) :
    Except PyError (SelState × Option Subs) :=
  if m.kind = some "video" ∨ m.kind = some "audio" then
    match processConnections o m acc.1 m.connection with
    | .error e => .error e
    | .ok st' => .ok (st', acc.2)
  else if m.kind = some "captions" then
    .ok (acc.1, some (o.extract_subtitles m))
  else
    .ok acc

/-- Iteration of `processMedia` over the media list. -/
def processMedias (o : Oracles) :
    SelState × Option Subs → List Media → Except PyError (SelState × Option Subs)
  | acc, [] => .ok acc
  | acc, m :: ms =>
    match processMedia o acc m with
    | .error e => .error e
    | .ok acc' => processMedias o acc' ms

/-- `BBCBaseIE._process_media_selector` over the extracted media list:
returns the collected formats and the (optional) subtitles. -/
def processMediaSelector (o : Oracles) (medias : List Media) :
    Except PyError (List Format × Option Subs) :=
  match processMedias o (⟨[], []⟩, none) medias with
  | .error e => .error e
  | .ok (st, subs) => .ok (st.formats, subs)

/-- The outcome of one media-set attempt of `_download_media_selector`
(one `_download_media_selector_url` call): formats and subtitles, or a
raised exception. -/
abbrev Attempt := Except PyError (List Format × Subs)

/-- The error ids that `_download_media_selector` defers instead of raising. -/
def recoverableIds : List String := ["notukerror", "geolocation", "selectionunavailable"]

/-- Modelled from the spec: `InfoExtractor._merge_subtitles` (common.py is
outside the reviewed sources) — for each language of the new set, the new
descriptors are appended onto the existing sequence when the language is
already present, else the language is inserted. -/
def mergeSubtitles (old new : Subs) : Subs :=
  (old.map fun p =>
    match new.lookup p.1 with
    | some v => (p.1, p.2 ++ v)
    | none => p) ++ new.filter (fun p => (old.lookup p.1).isNone)

/-- `_raise_extractor_error` on a `MediaSelectionError` id (the constant
`IE_NAME` prefix of the message is elided). -/
def raiseExtractorError (id : String) : PyError :=
  .extractorError ("returned error: " ++ id)

/-- The media-set loop of `BBCBaseIE._download_media_selector`, with the
running `last_exception`, `formats` and `subtitles`.  Returns the reported
warnings with the accumulated results, or the raised error. -/
def dmsLoop : List Attempt → Option String → List Format → Subs →
    Except PyError (List String × List Format × Subs)
  | [], last, fmts, subs =>
    match last with
    | some id =>
      if !fmts.isEmpty || !subs.isEmpty then
        .ok ((if id ≠ "selectionunavailable" then ["returned error: " ++ id] else []),
             fmts, subs)
      else .error (raiseExtractorError id)
    | none => .ok ([], fmts, subs)
  | a :: rest, last, fmts, subs =>
    match a with
    | .ok (f, s) =>
      dmsLoop rest last (fmts ++ f) (if s.isEmpty then subs else mergeSubtitles subs s)
    | .error (.mediaSelectionError id) =>
      if recoverableIds.contains id then dmsLoop rest (some id) fmts subs
      else .error (raiseExtractorError id)
    | .error e => .error e

/-- `BBCBaseIE._download_media_selector`, as a function of the per-media-set
outcomes. -/
def downloadMediaSelector (attempts : List Attempt) :
    Except PyError (List String × List Format × Subs) :=
  dmsLoop attempts none [] []

/-- Formats accumulated from the successful attempts, in order. -/
def accFormats (acc : List Format) : List Attempt → List Format
  | [] => acc
  | .ok (f, _) :: r => accFormats (acc ++ f) r
  | .error _ :: r => accFormats acc r

/-- Subtitles accumulated from the successful attempts
(empty subtitle sets are skipped, as in the source). -/
def accSubs (acc : Subs) : List Attempt → Subs
  | [] => acc
  | .ok (_, s) :: r => accSubs (if s.isEmpty then acc else mergeSubtitles acc s) r
  | .error _ :: r => accSubs acc r

/-- The last deferred recoverable error id over a run of attempts. -/
def lastRecoverable (last : Option String) : List Attempt → Option String
  | [] => last
  | .ok _ :: r => lastRecoverable last r
  | .error (.mediaSelectionError id) :: r =>
    if recoverableIds.contains id then lastRecoverable (some id) r
    else lastRecoverable last r
  | .error _ :: r => lastRecoverable last r

/-- One stream item of the TV2 playback JSON (`streams` entry);
`typ` models the JSON field named `type`. -/
structure TV2Item where
  url : Option String := none
  typ : Option String := none
  mediaFormat : Option String := none
  bitrate : Option Int := none
  fileSize : Option Int := none
deriving Repr, DecidableEq

/-- Oracles for the TV2 helpers outside the reviewed sources
(`_is_valid_url`, `determine_ext` and the manifest expanders; the live /
entry-protocol distinction of the m3u8 call is absorbed by the oracle). -/
structure TV2Oracles where
  is_valid_url : String → String → Bool
  determine_ext : String → String
  extract_f4m_formats : String → String → Except PyError (List Format)
  extract_m3u8_formats : String → String → Except PyError (List Format)
  extract_mpd_formats : String → String → Except PyError (List Format)

/-- Mutable state of the TV2 format loop. -/
structure TV2State where
  formats : List Format
  format_urls : List String
deriving Repr, DecidableEq

/-- `dict_get(item, ('type', 'mediaFormat'))`: the first value that is not
`None` (an empty string is still returned). -/
def dictGet2 (a b : Option String) : Option String :=
  match a with
  | some v => some v
  | none => b

/-- Processing of one stream item inside `TV2IE._real_extract` (tv2.py):
falsy or already-seen urls are skipped before anything else; the url is
registered only after the `_is_valid_url` probe succeeds. -/
def tv2ProcessItem (o : TV2Oracles) (protocol : String) (drmProtected : Bool)
    (st : TV2State) (item : TV2Item) : Except PyError TV2State :=
  let video_url := item.url
  if !pyTruthyS video_url || hrefIn video_url st.format_urls then .ok st
  else
    let u := pyStr video_url
    let format_id := protocol.toLower ++ "-" ++ pyStr (dictGet2 item.typ item.mediaFormat)
    if !o.is_valid_url u format_id then .ok st
    else
      let format_urls := u :: st.format_urls
      let ext := o.determine_ext u
      if ext = "f4m" then
        match o.extract_f4m_formats u format_id with
        | .error e => .error e
        | .ok fmts => .ok ⟨st.formats ++ fmts, format_urls⟩
      else if ext = "m3u8" then
        if !drmProtected then
          match o.extract_m3u8_formats u format_id with
          | .error e => .error e
          | .ok fmts => .ok ⟨st.formats ++ fmts, format_urls⟩
        else .ok ⟨st.formats, format_urls⟩
      else if ext = "mpd" then
        match o.extract_mpd_formats u format_id with
        | .error e => .error e
        | .ok fmts => .ok ⟨st.formats ++ fmts, format_urls⟩
      else if ext = "ism" ∨ u.endsWith ".ism/Manifest" then
        .ok ⟨st.formats, format_urls⟩
      else
        .ok ⟨st.formats ++ [{ url := video_url, format_id := some format_id,
                              tbr := item.bitrate, filesize := item.fileSize }],
             format_urls⟩

/-- Whether the first character list occurs at the head of the second. -/
def subListAt : List Char → List Char → Bool
  | [], _ => true
  | _ :: _, [] => false
  | a :: as, b :: bs => a == b && subListAt as bs

/-- Whether the first character list occurs contiguously in the second. -/
def hasSubList (pat : List Char) : List Char → Bool
  | [] => pat.isEmpty
  | b :: bs => subListAt pat (b :: bs) || hasSubList pat bs

/-- `'AudioDescribed' in x` — Python substring containment on strings. -/
def pyInStr (pat x : String) : Bool :=
  hasSubList pat.toList x.toList

/-- The per-version decoration loop of `BBCCoUkIE._download_playlist`
(bbc.py): `types = version.get('types', ['unknown'])`, then every format of
the version gets `format_note = ', '.join(types)` and, when any type
contains `'AudioDescribed'` as a substring, `language_preference = -10`. -/
def decorateVersionFormats (types0 : Option (List String)) (fmts : List Format) :
    List Format :=
  let types := types0.getD ["unknown"]
  fmts.map fun f =>
    let f' := { f with format_note := some (String.intercalate ", " types) }
    if types.any (fun x => pyInStr "AudioDescribed" x) then
      { f' with language_preference := some (-10) }
    else f'

/-- A trivial oracle bundle: every expansion succeeds with no formats. -/
def noopOracles : Oracles where
  extract_mpd_formats := fun _ _ => .ok []
  extract_m3u8_formats := fun _ _ => .ok []
  extract_f4m_formats := fun _ _ => .ok []
  extract_asx_playlist := fun _ => []
  extract_subtitles := fun _ => []

/-- A trivial TV2 oracle bundle. -/
def noopTV2Oracles : TV2Oracles where
  is_valid_url := fun _ _ => true
  determine_ext := fun _ => "mp4"
  extract_f4m_formats := fun _ _ => .ok []
  extract_m3u8_formats := fun _ _ => .ok []
  extract_mpd_formats := fun _ _ => .ok []

/-- A sample direct-link format record. -/
def fmt0 : Format := { url := some "http://a/v.mp4", format_id := some "http" }

/-- Two RTMP connections with different hrefs but identical server,
application and auth string: both assemble the same record url. -/
def c1Medias : List Media :=
  [{ kind := some "video",
     connection :=
       [{ href := some "http://cdn1/aaa", protocol := some "rtmp",
          supplier := some "akamai", server := some "srv",
          application := some "ondemand", authString := some "tok",
          identifier := some "id1" },
        { href := some "http://cdn2/bbb", protocol := some "rtmp",
          supplier := some "limelight", server := some "srv",
          application := some "ondemand", authString := some "tok",
          identifier := some "id2" }] }]

/-- The format list produced on `c1Medias`. -/
def c1Result : List Format :=
  ((processMediaSelector noopOracles c1Medias).toOption.getD ([], none)).1

/-- Oracles whose DASH expansion raises an `ExtractorError` wrapping an
HTTP 403. -/
def dash403Oracles : Oracles :=
  { noopOracles with extract_mpd_formats := fun _ _ => .error (.httpError 403) }

/-- A single DASH connection. -/
def c3Medias : List Media :=
  [{ kind := some "video",
     connection := [{ href := some "http://x/manifest.mpd",
                      transferFormat := some "dash",
                      supplier := some "akamai" }] }]

/-- Oracles whose HLS expansion reports one variant carrying the id prefix
it was handed. -/
def echoOracles : Oracles :=
  { noopOracles with
      extract_m3u8_formats := fun _ fid =>
        .ok [{ format_id := fid, url := some "http://var/1.m3u8" }] }

/-- An HLS connection without supplier on a media with bitrate 320. -/
def c7Medias : List Media :=
  [{ kind := some "video", bitrate := some 320,
     connection := [{ href := some "http://x/main.m3u8",
                      transferFormat := some "hls",
                      protocol := some "http" }] }]

/-- A connection with no supplier, kind or protocol on a media with a
truthy bitrate. -/
def c9Medias : List Media :=
  [{ kind := some "video", bitrate := some 320,
     connection := [{ href := some "http://x/stream" }] }]

/-- One succeeding media set followed by one failing with an id outside the
recoverable set. -/
def c2Attempts : List Attempt :=
  [.ok ([fmt0], []), .error (.mediaSelectionError "unknownerror")]

/-- One recoverable failure followed by one succeeding media set. -/
def c2wAttempts : List Attempt :=
  [.error (.mediaSelectionError "geolocation"), .ok ([fmt0], [])]

/-- Oracles whose ASX download yields two `<ref>` entries. -/
def asxOracles : Oracles :=
  { noopOracles with
      extract_asx_playlist := fun _ => [some "http://r0", some "http://r1"] }

/-- Oracles whose HLS expansion raises an `ExtractorError` wrapping HTTP 404. -/
def hls404Oracles : Oracles :=
  { noopOracles with extract_m3u8_formats := fun _ _ => .error (.httpError 404) }

/-- Oracles whose HLS expansion raises an `ExtractorError` wrapping HTTP 500. -/
def hls500Oracles : Oracles :=
  { noopOracles with extract_m3u8_formats := fun _ _ => .error (.httpError 500) }

/-- The format list produced on `c7Medias` with the echoing oracle. -/
def c7Result : List Format :=
  ((processMediaSelector echoOracles c7Medias).toOption.getD ([], none)).1

lemma formatIdOf_some_of_protocol (c : Connection) (p : String)
    (hp : c.protocol = some p) : ∃ s, formatIdOf c = some s := by
  unfold formatIdOf pyOr
  by_cases h1 : pyTruthyS c.supplier = true
  · cases hs : c.supplier with
    | none => rw [hs] at h1; simp [pyTruthyS] at h1
    | some v => rw [hs] at h1; exact ⟨v, by simp [h1, hs]⟩
  · by_cases h2 : pyTruthyS c.kind = true
    · cases hk : c.kind with
      | none => rw [hk] at h2; simp [pyTruthyS] at h2
      | some v => rw [hk] at h2; exact ⟨v, by simp [h1, h2, hk]⟩
    · exact ⟨p, by simp [h1, h2, hp]⟩

lemma subListAt_refl : ∀ l : List Char, subListAt l l = true
  | [] => rfl
  | _ :: as => by simp [subListAt, subListAt_refl as]

lemma hasSubList_self : ∀ l : List Char, hasSubList l l = true
  | [] => rfl
  | b :: bs => by simp [hasSubList, subListAt_refl (b :: bs)]

lemma pyInStr_self (s : String) : pyInStr s s = true :=
  hasSubList_self s.toList

lemma asxFormats_length (fid : String) :
    ∀ (k : Nat) (refs : List (Option String)),
      (asxFormats fid k refs).length = refs.length
  | _, [] => rfl
  | k, _ :: rs => by simp [asxFormats, asxFormats_length fid (k + 1) rs]

lemma asxFormats_getElem (fid : String) :
    ∀ (refs : List (Option String)) (k i : Nat),
      (asxFormats fid k refs)[i]? =
        refs[i]?.map (fun r =>
          { url := r, format_id := some ("ref" ++ toString (k + i) ++ "_" ++ fid) })
  | [], _, _ => by simp [asxFormats]
  | r :: rs, k, 0 => by simp [asxFormats]
  | r :: rs, k, i + 1 => by
    have h : k + 1 + i = k + (i + 1) := by omega
    simp [asxFormats, asxFormats_getElem fid rs (k + 1) i, h]

/-- C4: for every connection descriptor, `format_id` follows the fixed
preference chain: the supplier when truthy, else the connection kind when
truthy, else the protocol. -/
theorem C4_format_id_preference (c : Connection) :
    (pyTruthyS c.supplier = true → formatIdOf c = c.supplier) ∧
    (pyTruthyS c.supplier = false → pyTruthyS c.kind = true → formatIdOf c = c.kind) ∧
    (pyTruthyS c.supplier = false → pyTruthyS c.kind = false → formatIdOf c = c.protocol) :=
  ⟨fun h => by simp [formatIdOf, pyOr, h],
   fun h1 h2 => by simp [formatIdOf, pyOr, h1, h2],
   fun h1 h2 => by simp [formatIdOf, pyOr, h1, h2]⟩

/-- C4 witness: the chain evaluated at three concrete connections. -/
theorem C4_format_id_preference_witness :
    formatIdOf { supplier := some "akamai", kind := some "ak", protocol := some "http" }
      = some "akamai" ∧
    formatIdOf { kind := some "ak", protocol := some "http" } = some "ak" ∧
    formatIdOf { protocol := some "http" } = some "http" :=
  ⟨(C4_format_id_preference _).1 (by decide),
   (C4_format_id_preference _).2.1 (by decide) (by decide),
   (C4_format_id_preference _).2.2 (by decide) (by decide)⟩

/-- C6: every format of a playlist version whose types include
`AudioDescribed` gets language preference -10. -/
theorem C6_audio_described_weight (types0 : Option (List String)) (fmts : List Format)
    (h : "AudioDescribed" ∈ types0.getD ["unknown"]) :
    (decorateVersionFormats types0 fmts).all
      (fun f => f.language_preference == some (-10)) = true := by
  have hany : (types0.getD ["unknown"]).any (fun x => pyInStr "AudioDescribed" x) = true :=
    List.any_eq_true.mpr ⟨_, h, pyInStr_self _⟩
  rw [List.all_eq_true]
  intro f hf
  unfold decorateVersionFormats at hf
  rw [List.mem_map] at hf
  obtain ⟨g, _, rfl⟩ := hf
  simp [hany]

/-- C6 witness: a version typed `AudioDescribed` at a concrete format list. -/
theorem C6_audio_described_weight_witness :
    (decorateVersionFormats (some ["Original", "AudioDescribed"]) [fmt0]).all
      (fun f => f.language_preference == some (-10)) = true :=
  C6_audio_described_weight (some ["Original", "AudioDescribed"]) [fmt0] (by decide)

/-- C8: a connection with supplier `asx` expands the legacy XML playlist at
its href into exactly one format record per `<ref>` entry, the i-th (0-based)
carrying that entry's href as url and `ref<i>_asx` as format_id. -/
theorem C8_asx_expansion (o : Oracles) (m : Media) (st : SelState) (c : Connection)
    (hdup : hrefIn c.href st.urls = false)
    (hsup : c.supplier = some "asx") :
    processConnection o m st c =
      .ok ⟨st.formats ++ asxFormats "asx" 0 (o.extract_asx_playlist c.href),
           addHref c.href st.urls⟩ ∧
    (asxFormats "asx" 0 (o.extract_asx_playlist c.href)).length =
      (o.extract_asx_playlist c.href).length ∧
    ∀ i : Nat,
      (asxFormats "asx" 0 (o.extract_asx_playlist c.href))[i]? =
        (o.extract_asx_playlist c.href)[i]?.map
          (fun r => { url := r, format_id := some ("ref" ++ toString i ++ "_asx") }) := by
  refine ⟨?_, asxFormats_length "asx" 0 _, fun i => ?_⟩
  · simp [processConnection, hdup, hsup, formatIdOf, pyOr, pyTruthyS, pyStr]
    rfl
  · rw [asxFormats_getElem]
    have hlit : ("_" : String) ++ "asx" = "_asx" := rfl
    cases (o.extract_asx_playlist c.href)[i]? with
    | none => simp
    | some r => simp [String.append_assoc, hlit]

/-- C8 witness: a concrete two-entry ASX playlist. -/
theorem C8_asx_expansion_witness :
    processConnection asxOracles { kind := some "video" } ⟨[], []⟩
        { href := some "http://x/pl.asx", supplier := some "asx" } =
      .ok ⟨[{ url := some "http://r0", format_id := some "ref0_asx" },
            { url := some "http://r1", format_id := some "ref1_asx" }],
           ["http://x/pl.asx"]⟩ := by
  have h := (C8_asx_expansion asxOracles { kind := some "video" } ⟨[], []⟩
      { href := some "http://x/pl.asx", supplier := some "asx" } (by decide) rfl).1
  rw [h]
  rfl

/-- C5: an RTMP connection with server S, application A, auth string T and
identifier I yields one record with url `rtmp://S/A?T`, play_path I and
app `A?T`. -/
theorem C5_rtmp_assembly (o : Oracles) (m : Media) (st : SelState) (c : Connection)
    (S A T I : String)
    (hdup : hrefIn c.href st.urls = false)
    (hasx : c.supplier ≠ some "asx")
    (hd : c.transferFormat ≠ some "dash")
    (hh : c.transferFormat ≠ some "hls")
    (hf : c.transferFormat ≠ some "hds")
    (hp : c.protocol = some "rtmp")
    (hS : c.server = some S) (hA : c.application = some A)
    (hT : c.authString = some T) (hI : c.identifier = some I) :
    ∃ f : Format,
      processConnection o m st c = .ok ⟨st.formats ++ [f], addHref c.href st.urls⟩ ∧
      f.url = some ("rtmp://" ++ S ++ "/" ++ A ++ "?" ++ T) ∧
      f.play_path = some I ∧
      f.app = some (A ++ "?" ++ T) := by
  obtain ⟨s, hfid⟩ := formatIdOf_some_of_protocol c "rtmp" hp
  by_cases hb : (!pyTruthyS c.supplier && pyTruthyI m.bitrate) = true <;>
    by_cases hv : m.kind = some "video" <;>
    simp [processConnection, hdup, hasx, hd, hh, hf, hp, hS, hA, hT, hI, hb, hv, hfid, pyStr]

/-- C5 witness: concrete RTMP connection parameters. -/
theorem C5_rtmp_assembly_witness :
    ∃ f : Format,
      processConnection noopOracles { kind := some "video" } ⟨[], []⟩
          { href := some "http://cdn/our", protocol := some "rtmp",
            server := some "srv.example", application := some "ondemand",
            authString := some "token123", identifier := some "path/to/stream" } =
        .ok ⟨[] ++ [f], addHref (some "http://cdn/our") []⟩ ∧
      f.url = some ("rtmp://" ++ "srv.example" ++ "/" ++ "ondemand" ++ "?" ++ "token123") ∧
      f.play_path = some "path/to/stream" ∧
      f.app = some ("ondemand" ++ "?" ++ "token123") :=
  C5_rtmp_assembly noopOracles { kind := some "video" } ⟨[], []⟩
    { href := some "http://cdn/our", protocol := some "rtmp",
      server := some "srv.example", application := some "ondemand",
      authString := some "token123", identifier := some "path/to/stream" }
    "srv.example" "ondemand" "token123" "path/to/stream"
    (by decide) (by decide) (by decide) (by decide) (by decide) rfl rfl rfl rfl rfl

/-- C10: an RTMP connection lacking the application field defaults to
`ondemand` in both the url and the app parameter. -/
theorem C10_rtmp_default_application (o : Oracles) (m : Media) (st : SelState)
    (c : Connection) (S T : String)
    (hdup : hrefIn c.href st.urls = false)
    (hasx : c.supplier ≠ some "asx")
    (hd : c.transferFormat ≠ some "dash")
    (hh : c.transferFormat ≠ some "hls")
    (hf : c.transferFormat ≠ some "hds")
    (hp : c.protocol = some "rtmp")
    (hS : c.server = some S) (hA : c.application = none)
    (hT : c.authString = some T) :
    ∃ f : Format,
      processConnection o m st c = .ok ⟨st.formats ++ [f], addHref c.href st.urls⟩ ∧
      f.url = some ("rtmp://" ++ S ++ "/ondemand?" ++ T) ∧
      f.app = some ("ondemand?" ++ T) := by
  obtain ⟨s, hfid⟩ := formatIdOf_some_of_protocol c "rtmp" hp
  have hurl : ∀ x : String, x ++ "/" ++ "ondemand" ++ "?" ++ T = x ++ "/ondemand?" ++ T := by
    intro x
    rw [String.append_assoc x "/" "ondemand"]
    have h1 : ("/" : String) ++ "ondemand" = "/ondemand" := rfl
    rw [h1, String.append_assoc x "/ondemand" "?"]
    rfl
  have happ : ("ondemand" : String) ++ "?" ++ T = "ondemand?" ++ T := rfl
  by_cases hb : (!pyTruthyS c.supplier && pyTruthyI m.bitrate) = true <;>
    by_cases hv : m.kind = some "video" <;>
    simp [processConnection, hdup, hasx, hd, hh, hf, hp, hS, hA, hT, hb, hv, hfid, pyStr,
          ← hurl ("rtmp://" ++ S), ← happ]

/-- C10 witness: concrete RTMP connection with absent application. -/
theorem C10_rtmp_default_application_witness :
    ∃ f : Format,
      processConnection noopOracles { kind := some "audio" } ⟨[], []⟩
          { href := some "http://cdn/our2", protocol := some "rtmp",
            server := some "srv.example", authString := some "tok2" } =
        .ok ⟨[] ++ [f], addHref (some "http://cdn/our2") []⟩ ∧
      f.url = some ("rtmp://" ++ "srv.example" ++ "/ondemand?" ++ "tok2") ∧
      f.app = some ("ondemand?" ++ "tok2") :=
  C10_rtmp_default_application noopOracles { kind := some "audio" } ⟨[], []⟩
    { href := some "http://cdn/our2", protocol := some "rtmp",
      server := some "srv.example", authString := some "tok2" }
    "srv.example" "tok2"
    (by decide) (by decide) (by decide) (by decide) (by decide) rfl rfl rfl rfl

/-- C1 (amended): de-duplication keys on the connection/stream url checked
before adapter dispatch — a BBC connection whose href is already registered,
and a TV2 stream item whose url is already registered, are skipped silently,
leaving state unchanged and raising no error. -/
theorem C1_dedup_by_connection_href :
    (∀ (o : Oracles) (m : Media) (st : SelState) (c : Connection) (s : String),
      c.href = some s → s ∈ st.urls → processConnection o m st c = .ok st) ∧
    (∀ (o : TV2Oracles) (protocol : String) (drm : Bool) (st : TV2State)
        (item : TV2Item) (s : String),
      item.url = some s → s ∈ st.format_urls →
      tv2ProcessItem o protocol drm st item = .ok st) := by
  constructor
  · intro o m st c s h1 h2
    have hdup : hrefIn c.href st.urls = true := by simp [hrefIn, h1, h2]
    simp [processConnection, hdup]
  · intro o protocol drm st item s h1 h2
    have hdup : hrefIn item.url st.format_urls = true := by simp [hrefIn, h1, h2]
    simp [tv2ProcessItem, hdup]

/-- C1 witness: the skip evaluated on concrete already-seen urls. -/
theorem C1_dedup_by_connection_href_witness :
    processConnection noopOracles { kind := some "video" } ⟨[], ["u1"]⟩
      { href := some "u1" } = .ok ⟨[], ["u1"]⟩ ∧
    tv2ProcessItem noopTV2Oracles "HLS" false ⟨[], ["u2"]⟩
      { url := some "u2" } = .ok ⟨[], ["u2"]⟩ :=
  ⟨C1_dedup_by_connection_href.1 noopOracles { kind := some "video" } ⟨[], ["u1"]⟩
      { href := some "u1" } "u1" rfl (by decide),
   C1_dedup_by_connection_href.2 noopTV2Oracles "HLS" false ⟨[], ["u2"]⟩
      { url := some "u2" } "u2" rfl (by decide)⟩

/-- C1 counterexample: two RTMP connections with different hrefs but equal
server/application/auth assemble two distinct retained records with the same
url, so de-duplication is not by the record's resolved url. -/
theorem C1_dedup_counterexample :
    c1Result.length = 2 ∧
    c1Result.map Format.url =
      [some "rtmp://srv/ondemand?tok", some "rtmp://srv/ondemand?tok"] ∧
    c1Result.map Format.format_id = [some "akamai", some "limelight"] := by
  refine ⟨rfl, rfl, rfl⟩

/-- C3 (amended): the HTTP-403/404 containment exists only in the HLS branch
of `_process_media_selector`: there, an `ExtractorError` wrapping HTTP
403/404 from the expansion helper yields zero formats while any other raised
error propagates; an error raised by the DASH expansion always propagates. -/
theorem C3_hls_403_containment :
    (∀ (o : Oracles) (m : Media) (st : SelState) (c : Connection) (e : PyError),
      hrefIn c.href st.urls = false → c.supplier ≠ some "asx" →
      c.transferFormat = some "hls" →
      o.extract_m3u8_formats c.href (formatIdOf c) = .error e →
      processConnection o m st c =
        if swallowable e then .ok ⟨st.formats, addHref c.href st.urls⟩ else .error e) ∧
    (swallowable (.httpError 403) = true ∧ swallowable (.httpError 404) = true ∧
      ∀ e : PyError, swallowable e = true → e = .httpError 403 ∨ e = .httpError 404) ∧
    (∀ (o : Oracles) (m : Media) (st : SelState) (c : Connection) (e : PyError),
      hrefIn c.href st.urls = false → c.supplier ≠ some "asx" →
      c.transferFormat = some "dash" →
      o.extract_mpd_formats c.href (formatIdOf c) = .error e →
      processConnection o m st c = .error e) := by
  refine ⟨?_, ⟨rfl, rfl, ?_⟩, ?_⟩
  · intro o m st c e hdup hasx ht horacle
    by_cases hs : swallowable e = true <;>
      simp [processConnection, hdup, hasx, ht, horacle, hs]
  · intro e he
    cases e with
    | httpError code =>
      simp only [swallowable, Bool.or_eq_true, beq_iff_eq] at he
      rcases he with h | h
      · left; rw [h]
      · right; rw [h]
    | mediaSelectionError id => simp [swallowable] at he
    | extractorError msg => simp [swallowable] at he
    | typeError msg => simp [swallowable] at he
  · intro o m st c e hdup hasx ht horacle
    simp [processConnection, hdup, hasx, ht, horacle]

/-- C3 witness: a 404 from the HLS helper is swallowed with zero formats; a
500 propagates. -/
theorem C3_hls_403_containment_witness :
    processConnection hls404Oracles { kind := some "video" } ⟨[], []⟩
        { href := some "http://x/main.m3u8", transferFormat := some "hls" } =
      (if swallowable (.httpError 404) then
        .ok ⟨[], addHref (some "http://x/main.m3u8") []⟩
      else .error (.httpError 404)) ∧
    processConnection hls500Oracles { kind := some "video" } ⟨[], []⟩
        { href := some "http://x/main.m3u8", transferFormat := some "hls" } =
      (if swallowable (.httpError 500) then
        .ok ⟨[], addHref (some "http://x/main.m3u8") []⟩
      else .error (.httpError 500)) :=
  ⟨C3_hls_403_containment.1 hls404Oracles { kind := some "video" } ⟨[], []⟩
      { href := some "http://x/main.m3u8", transferFormat := some "hls" }
      (.httpError 404) (by decide) (by decide) rfl rfl,
   C3_hls_403_containment.1 hls500Oracles { kind := some "video" } ⟨[], []⟩
      { href := some "http://x/main.m3u8", transferFormat := some "hls" }
      (.httpError 500) (by decide) (by decide) rfl rfl⟩

/-- C3 counterexample: a DASH expansion raising HTTP 403 escalates instead of
contributing zero formats. -/
theorem C3_dash_counterexample :
    processMediaSelector dash403Oracles c3Medias = .error (.httpError 403) := rfl

/-- C7 (amended): only for connections handled by the direct/RTMP branch, a
falsy supplier together with a truthy (nonzero) media bitrate appends
`-<bitrate>` to format_id. -/
theorem C7_bitrate_suffix (o : Oracles) (m : Media) (st : SelState) (c : Connection)
    (b : Int) (s : String)
    (hdup : hrefIn c.href st.urls = false)
    (hd : c.transferFormat ≠ some "dash")
    (hh : c.transferFormat ≠ some "hls")
    (hf : c.transferFormat ≠ some "hds")
    (hsup : pyTruthyS c.supplier = false)
    (hb : m.bitrate = some b) (hbne : b ≠ 0)
    (hfid : formatIdOf c = some s)
    (hp : c.protocol = some "http" ∨ c.protocol = some "https" ∨ c.protocol = some "rtmp") :
    ∃ f : Format,
      processConnection o m st c = .ok ⟨st.formats ++ [f], addHref c.href st.urls⟩ ∧
      f.format_id = some (s ++ "-" ++ toString b) := by
  have hasx : c.supplier ≠ some "asx" := by
    intro h
    rw [h] at hsup
    exact absurd hsup (by decide)
  rcases hp with hp | hp | hp <;>
    by_cases hv : m.kind = some "video" <;>
    simp [processConnection, hdup, hasx, hd, hh, hf, hb, hfid, hsup, pyTruthyI, hbne,
          hp, hv, pyStr]

/-- C7 witness: a direct http connection with no supplier and bitrate 320. -/
theorem C7_bitrate_suffix_witness :
    ∃ f : Format,
      processConnection noopOracles { kind := some "audio", bitrate := some 320 } ⟨[], []⟩
          { href := some "http://a/str.mp3", protocol := some "http" } =
        .ok ⟨[] ++ [f], addHref (some "http://a/str.mp3") []⟩ ∧
      f.format_id = some ("http" ++ "-" ++ toString (320 : Int)) :=
  C7_bitrate_suffix noopOracles { kind := some "audio", bitrate := some 320 } ⟨[], []⟩
    { href := some "http://a/str.mp3", protocol := some "http" } 320 "http"
    (by decide) (by decide) (by decide) (by decide) (by decide) rfl (by decide)
    (by decide) (.inl rfl)

/-- C7 counterexample: an HLS connection with no supplier and bitrate 320
passes format_id `http` to the expansion helper, without the `-320` suffix. -/
theorem C7_bitrate_counterexample :
    c7Result.map Format.format_id = [some "http"] ∧ ("http" : String) ≠ "http-320" :=
  ⟨rfl, by decide⟩

/-- C9 (amended): a video/audio connection whose transferFormat is not
dash/hls/hds, supplier not `asx` and protocol none of http/https/rtmp is
skipped silently — zero formats, no error — except in the corner where
supplier, kind and protocol are all falsy while the media bitrate is truthy,
where the bitrate append raises a TypeError. -/
theorem C9_silent_skip (o : Oracles) (m : Media) (st : SelState) (c : Connection)
    (hdup : hrefIn c.href st.urls = false)
    (hasx : c.supplier ≠ some "asx")
    (hd : c.transferFormat ≠ some "dash")
    (hh : c.transferFormat ≠ some "hls")
    (hf : c.transferFormat ≠ some "hds")
    (hp1 : c.protocol ≠ some "http")
    (hp2 : c.protocol ≠ some "https")
    (hp3 : c.protocol ≠ some "rtmp")
    (hsafe : ¬(pyTruthyS c.supplier = false ∧ pyTruthyI m.bitrate = true ∧
               formatIdOf c = none)) :
    processConnection o m st c = .ok ⟨st.formats, addHref c.href st.urls⟩ := by
  by_cases hcond : (!pyTruthyS c.supplier && pyTruthyI m.bitrate) = true
  · have hcond' : pyTruthyS c.supplier = false ∧ pyTruthyI m.bitrate = true := by
      simpa [Bool.and_eq_true, Bool.not_eq_true'] using hcond
    obtain ⟨s, hfid⟩ : ∃ s, formatIdOf c = some s := by
      cases hfid : formatIdOf c with
      | some s => exact ⟨s, rfl⟩
      | none => exact absurd ⟨hcond'.1, hcond'.2, hfid⟩ hsafe
    by_cases hv : m.kind = some "video" <;>
      simp [processConnection, hdup, hasx, hd, hh, hf, hp1, hp2, hp3, hcond, hv, hfid]
  · by_cases hv : m.kind = some "video" <;>
      simp [processConnection, hdup, hasx, hd, hh, hf, hp1, hp2, hp3, hcond, hv]

/-- C9 witness: an `mms` connection is skipped with no error. -/
theorem C9_silent_skip_witness :
    processConnection noopOracles { kind := some "video" } ⟨[], []⟩
        { href := some "http://x/str", protocol := some "mms" } =
      .ok ⟨[], addHref (some "http://x/str") []⟩ :=
  C9_silent_skip noopOracles { kind := some "video" } ⟨[], []⟩
    { href := some "http://x/str", protocol := some "mms" }
    (by decide) (by decide) (by decide) (by decide) (by decide) (by decide)
    (by decide) (by decide) (by decide)

/-- C9 counterexample: a connection with no supplier, kind or protocol on a
media with truthy bitrate raises a TypeError instead of being skipped. -/
theorem C9_crash_counterexample :
    processMediaSelector noopOracles c9Medias =
      .error (.typeError "unsupported operand type(s) for +=") := rfl

lemma dmsLoop_spec : ∀ (attempts : List Attempt) (last : Option String)
    (fmts : List Format) (subs : Subs),
    (∀ e, Except.error e ∈ attempts →
      ∃ id, e = PyError.mediaSelectionError id ∧ id ∈ recoverableIds) →
    dmsLoop attempts last fmts subs =
      match lastRecoverable last attempts with
      | none => .ok ([], accFormats fmts attempts, accSubs subs attempts)
      | some id =>
        if !(accFormats fmts attempts).isEmpty || !(accSubs subs attempts).isEmpty then
          .ok ((if id ≠ "selectionunavailable" then ["returned error: " ++ id] else []),
               accFormats fmts attempts, accSubs subs attempts)
        else .error (raiseExtractorError id)
  | [], last, fmts, subs, _ => by cases last <;> rfl
  | .ok (f, s) :: rest, last, fmts, subs, hrec => by
    have ih := dmsLoop_spec rest last (fmts ++ f)
      (if s.isEmpty then subs else mergeSubtitles subs s)
      (fun e he => hrec e (List.mem_cons_of_mem _ he))
    simpa only [dmsLoop, lastRecoverable, accFormats, accSubs] using ih
  | .error e :: rest, last, fmts, subs, hrec => by
    obtain ⟨id, rfl, hid⟩ := hrec e (List.mem_cons_self _ _)
    have hc : recoverableIds.contains id = true := by simpa using hid
    have ih := dmsLoop_spec rest (some id) fmts subs
      (fun e' he' => hrec e' (List.mem_cons_of_mem _ he'))
    simpa only [dmsLoop, lastRecoverable, accFormats, accSubs, hc, if_true] using ih

/-- C2 (amended): recovery in `_download_media_selector` covers exactly the
MediaSelectionError ids notukerror/geolocation/selectionunavailable.  When
every failure of the run is of that kind, the accumulated formats and
subtitles are returned with at most one warning whenever either is
nonempty, and an extraction error is raised only when both stay empty;
any other failure raises immediately (see the counterexample). -/
theorem C2_media_set_recovery (attempts : List Attempt)
    (hrec : ∀ e, Except.error e ∈ attempts →
      ∃ id, e = PyError.mediaSelectionError id ∧ id ∈ recoverableIds) :
    (accFormats [] attempts ≠ [] ∨ accSubs [] attempts ≠ [] →
      ∃ w, downloadMediaSelector attempts =
          .ok (w, accFormats [] attempts, accSubs [] attempts) ∧ w.length ≤ 1) ∧
    (∀ id, accFormats [] attempts = [] → accSubs [] attempts = [] →
      lastRecoverable none attempts = some id →
      downloadMediaSelector attempts = .error (raiseExtractorError id)) ∧
    (lastRecoverable none attempts = none →
      downloadMediaSelector attempts =
        .ok ([], accFormats [] attempts, accSubs [] attempts)) := by
  have h := dmsLoop_spec attempts none [] [] hrec
  unfold downloadMediaSelector
  refine ⟨?_, ?_, ?_⟩
  · intro hne
    rw [h]
    cases hl : lastRecoverable none attempts with
    | none => exact ⟨[], rfl, by simp⟩
    | some id =>
      have hcond :
          (!(accFormats [] attempts).isEmpty || !(accSubs [] attempts).isEmpty) = true := by
        rcases hne with hne | hne <;> simp [hne]
      simp only [hcond, if_true]
      refine ⟨_, rfl, ?_⟩
      by_cases hsel : id ≠ "selectionunavailable" <;> simp [hsel]
  · intro id h1 h2 hl
    rw [h, hl]
    simp [h1, h2]
  · intro hl
    rw [h, hl]

/-- C2 witness: a recoverable geolocation failure plus a succeeding media
set yields the accumulated formats with at most one warning. -/
theorem C2_media_set_recovery_witness :
    ∃ w, downloadMediaSelector c2wAttempts =
        .ok (w, accFormats [] c2wAttempts, accSubs [] c2wAttempts) ∧ w.length ≤ 1 :=
  (C2_media_set_recovery c2wAttempts (fun e he => by
      simp [c2wAttempts] at he
      exact ⟨"geolocation", he, by decide⟩)).1 (.inl (by decide))

/-- C2 counterexample: a media set failing with an id outside the
recoverable set raises an extraction error although another media set
already yielded formats. -/
theorem C2_recovery_counterexample :
    accFormats [] c2Attempts = [fmt0] ∧
    downloadMediaSelector c2Attempts = .error (raiseExtractorError "unknownerror") :=
  ⟨rfl, rfl⟩
